import Mathlib

/-!
Verification of the paranoid-passwd core against its specification.

The C sources are embedded shallowly:
* bytes are `Nat` values; a `uint8_t` array is a `List Nat` whose reads are
  taken modulo 256 where the C type forces a byte value;
* 32-bit and 64-bit machine words are `Nat` with explicit `% 2 ^ 32` /
  `% 2 ^ 64` at every operation that can overflow;
* C `int` parameters and return codes are `Int`;
* a possibly-NULL pointer argument is an `Option`;
* the entropy source (`paranoid_platform_random`) is a finite stream of
  bytes, `List Nat`; a request for `n` bytes succeeds exactly when `n`
  bytes remain, consuming them — an exhausted stream models the platform
  reporting failure.
-/

set_option maxRecDepth 20000

/-! ## SHA-256 (src/src/sha256_compact.c)

`uint32_t` words are `Nat` kept below `2 ^ 32`.  `ROTR`, `Ch`, `Maj`,
`Sigma0`, `Sigma1`, `sigma0`, `sigma1` follow the macros at
sha256_compact.c lines 27-36; `~x` on a 32-bit word is `x ^^^ (2^32 - 1)`.
-/

def rotr (x n : Nat) : Nat := ((x >>> n) ||| (x <<< (32 - n))) % 2 ^ 32

def shaCh (x y z : Nat) : Nat := (x &&& y) ^^^ ((x ^^^ (2 ^ 32 - 1)) &&& z)

def shaMaj (x y z : Nat) : Nat := (x &&& y) ^^^ (x &&& z) ^^^ (y &&& z)

def bigSigma0 (x : Nat) : Nat := rotr x 2 ^^^ rotr x 13 ^^^ rotr x 22

def bigSigma1 (x : Nat) : Nat := rotr x 6 ^^^ rotr x 11 ^^^ rotr x 25

def smallSigma0 (x : Nat) : Nat := rotr x 7 ^^^ rotr x 18 ^^^ (x >>> 3)

def smallSigma1 (x : Nat) : Nat := rotr x 17 ^^^ rotr x 19 ^^^ (x >>> 10)

/-- The 64 round constants `K` (sha256_compact.c lines 48-65). -/
def shaK : List Nat :=
  [0x428a2f98, 0x71374491, 0xb5c0fbcf, 0xe9b5dba5] ++
  [0x3956c25b, 0x59f111f1, 0x923f82a4, 0xab1c5ed5] ++
  [0xd807aa98, 0x12835b01, 0x243185be, 0x550c7dc3] ++
  [0x72be5d74, 0x80deb1fe, 0x9bdc06a7, 0xc19bf174] ++
  [0xe49b69c1, 0xefbe4786, 0x0fc19dc6, 0x240ca1cc] ++
  [0x2de92c6f, 0x4a7484aa, 0x5cb0a9dc, 0x76f988da] ++
  [0x983e5152, 0xa831c66d, 0xb00327c8, 0xbf597fc7] ++
  [0xc6e00bf3, 0xd5a79147, 0x06ca6351, 0x14292967] ++
  [0x27b70a85, 0x2e1b2138, 0x4d2c6dfc, 0x53380d13] ++
  [0x650a7354, 0x766a0abb, 0x81c2c92e, 0x92722c85] ++
  [0xa2bfe8a1, 0xa81a664b, 0xc24b8b70, 0xc76c51a3] ++
  [0xd192e819, 0xd6990624, 0xf40e3585, 0x106aa070] ++
  [0x19a4c116, 0x1e376c08, 0x2748774c, 0x34b0bcb5] ++
  [0x391c0cb3, 0x4ed8aa4a, 0x5b9cca4f, 0x682e6ff3] ++
  [0x748f82ee, 0x78a5636f, 0x84c87814, 0x8cc70208] ++
  [0x90befffa, 0xa4506ceb, 0xbef9a3f7, 0xc67178f2]

/-- Big-endian load of one 32-bit word from four bytes
(sha256_compact.c lines 82-87). -/
def wordOfBytes (b0 b1 b2 b3 : Nat) : Nat :=
  ((b0 % 256) <<< 24) ||| ((b1 % 256) <<< 16) ||| ((b2 % 256) <<< 8) ||| (b3 % 256)

/-- `W[0..15]`: the sixteen big-endian words of a 64-byte block. -/
def loadWords : List Nat → List Nat
  | b0 :: b1 :: b2 :: b3 :: rest => wordOfBytes b0 b1 b2 b3 :: loadWords rest
  | _ => []

/-- One step of the message-schedule recurrence (sha256_compact.c line 90),
over the reversed schedule-so-far (head = most recent word). -/
def scheduleStep (w : List Nat) : Nat :=
  (smallSigma1 (w.getD 1 0) + w.getD 6 0 + smallSigma0 (w.getD 14 0) + w.getD 15 0) % 2 ^ 32

def extendSchedule : Nat → List Nat → List Nat
  | 0, w => w
  | n + 1, w => extendSchedule n (scheduleStep w :: w)

/-- The full 64-word message schedule `W[0..63]`. -/
def messageSchedule (block : List Nat) : List Nat :=
  (extendSchedule 48 (loadWords block).reverse).reverse

/-- The eight working variables `a..h` / hash words `state[0..7]`. -/
structure Sha256State where
  s0 : Nat
  s1 : Nat
  s2 : Nat
  s3 : Nat
  s4 : Nat
  s5 : Nat
  s6 : Nat
  s7 : Nat
deriving DecidableEq

/-- One compression round (sha256_compact.c lines 106-117);
`kw` is the pair `(K[t], W[t])`. -/
def roundStep (s : Sha256State) (kw : Nat × Nat) : Sha256State :=
  let T1 := (s.s7 + bigSigma1 s.s4 + shaCh s.s4 s.s5 s.s6 + kw.1 + kw.2) % 2 ^ 32
  let T2 := (bigSigma0 s.s0 + shaMaj s.s0 s.s1 s.s2) % 2 ^ 32
  ⟨(T1 + T2) % 2 ^ 32, s.s0, s.s1, s.s2, (s.s3 + T1) % 2 ^ 32, s.s4, s.s5, s.s6⟩

/-- `sha256_transform`: process a single 64-byte block
(sha256_compact.c lines 73-128). -/
def sha256_transform (st : Sha256State) (block : List Nat) : Sha256State :=
  let f := (shaK.zip (messageSchedule block)).foldl roundStep st
  ⟨(st.s0 + f.s0) % 2 ^ 32, (st.s1 + f.s1) % 2 ^ 32,
   (st.s2 + f.s2) % 2 ^ 32, (st.s3 + f.s3) % 2 ^ 32,
   (st.s4 + f.s4) % 2 ^ 32, (st.s5 + f.s5) % 2 ^ 32,
   (st.s6 + f.s6) % 2 ^ 32, (st.s7 + f.s7) % 2 ^ 32⟩

/-- `sha256_ctx_t`.  `buffer` holds exactly the currently buffered bytes
(the C code keeps a fixed 64-byte array of which only the first
`count % 64` bytes are ever read before being overwritten or zero-filled,
so the stale tail is not modelled). -/
structure sha256_ctx where
  state : Sha256State
  count : Nat
  buffer : List Nat
deriving DecidableEq

/-- FIPS 180-4 initial hash value (sha256_compact.c lines 139-146). -/
def sha256_initState : Sha256State :=
  ⟨0x6a09e667, 0xbb67ae85, 0x3c6ef372, 0xa54ff53a,
   0x510e527f, 0x9b05688c, 0x1f83d9ab, 0x5be0cd19⟩

/-- `sha256_init` (sha256_compact.c lines 138-149). -/
def sha256_init : sha256_ctx := ⟨sha256_initState, 0, []⟩

/-- Run `n` iterations of the full-block loop
(sha256_compact.c lines 175-177): each iteration transforms the next
64 bytes. -/
def absorbN : Nat → Sha256State → List Nat → Sha256State × List Nat
  | 0, st, d => (st, d)
  | n + 1, st, d => absorbN n (sha256_transform st (d.take 64)) (d.drop 64)

/-- Process every full 64-byte block of `d`, returning the new state and
the remaining (< 64) bytes. -/
def absorb (st : Sha256State) (d : List Nat) : Sha256State × List Nat :=
  absorbN (d.length / 64) st d

/-- `sha256_update` (sha256_compact.c lines 155-183). -/
def sha256_update (ctx : sha256_ctx) (data : List Nat) : sha256_ctx :=
  let buffered := ctx.count % 64
  let count2 := (ctx.count + data.length) % 2 ^ 64
  if buffered > 0 then
    let need := 64 - buffered
    if need ≤ data.length then
      let st1 := sha256_transform ctx.state (ctx.buffer ++ data.take need)
      let r := absorb st1 (data.drop need)
      ⟨r.1, count2, r.2⟩
    else
      ⟨ctx.state, count2, ctx.buffer ++ data⟩
  else
    let r := absorb ctx.state data
    ⟨r.1, count2, r.2⟩

/-- The eight bytes of the big-endian 64-bit bit count
(sha256_compact.c lines 213-220). -/
def u64Bytes (bits : Nat) : List Nat :=
  [(bits >>> 56) % 256, (bits >>> 48) % 256, (bits >>> 40) % 256, (bits >>> 32) % 256,
   (bits >>> 24) % 256, (bits >>> 16) % 256, (bits >>> 8) % 256, bits % 256]

/-- Big-endian bytes of one 32-bit word (sha256_compact.c lines 226-229). -/
def wordBytes (w : Nat) : List Nat :=
  [(w >>> 24) % 256, (w >>> 16) % 256, (w >>> 8) % 256, w % 256]

def digestBytes (st : Sha256State) : List Nat :=
  wordBytes st.s0 ++ wordBytes st.s1 ++ wordBytes st.s2 ++ wordBytes st.s3 ++
  wordBytes st.s4 ++ wordBytes st.s5 ++ wordBytes st.s6 ++ wordBytes st.s7

/-- `sha256_final` (sha256_compact.c lines 195-234): append `0x80`, pad,
write the big-endian bit count, transform, emit the digest.  The closing
`memset(ctx, 0, ...)` scrub only erases the context and does not affect
the digest, so it is not part of the returned value. -/
def sha256_final (ctx : sha256_ctx) : List Nat :=
  let bits := (ctx.count * 8) % 2 ^ 64
  let buffered := ctx.count % 64
  let st :=
    if buffered + 1 > 56 then
      let st1 := sha256_transform ctx.state
        (ctx.buffer ++ 0x80 :: List.replicate (64 - (buffered + 1)) 0)
      sha256_transform st1 (List.replicate 56 0 ++ u64Bytes bits)
    else
      sha256_transform ctx.state
        (ctx.buffer ++ 0x80 :: (List.replicate (56 - (buffered + 1)) 0 ++ u64Bytes bits))
  digestBytes st

/-- `sha256_hash`: one-shot convenience (sha256_compact.c lines 240-245). -/
def sha256_hash (data : List Nat) : List Nat :=
  sha256_final (sha256_update sha256_init data)

/-- C1: the one-shot SHA-256 of the empty message and of "abc" are the
FIPS 180-4 test-vector digests
e3b0c44298fc1c149afbf4c8996fb92427ae41e4649b934ca495991b7852b855 and
ba7816bf8f01cfea414140de5dae2223b00361a396177a9cb410ff61f20015ad. -/
theorem sha256_hash_test_vectors :
    sha256_hash [] =
      [0xe3, 0xb0, 0xc4, 0x42, 0x98, 0xfc, 0x1c, 0x14,
       0x9a, 0xfb, 0xf4, 0xc8, 0x99, 0x6f, 0xb9, 0x24,
       0x27, 0xae, 0x41, 0xe4, 0x64, 0x9b, 0x93, 0x4c,
       0xa4, 0x95, 0x99, 0x1b, 0x78, 0x52, 0xb8, 0x55] ∧
    sha256_hash [0x61, 0x62, 0x63] =
      [0xba, 0x78, 0x16, 0xbf, 0x8f, 0x01, 0xcf, 0xea,
       0x41, 0x41, 0x40, 0xde, 0x5d, 0xae, 0x22, 0x23,
       0xb0, 0x03, 0x61, 0xa3, 0x96, 0x17, 0x7a, 0x9c,
       0xb4, 0x10, 0xff, 0x61, 0xf2, 0x00, 0x15, 0xad] := by
  constructor <;> rfl

/-! ### Incremental / one-shot equivalence (C2) -/

theorem absorbN_snd (n : Nat) : ∀ (st : Sha256State) (d : List Nat),
    (absorbN n st d).2 = d.drop (64 * n) := by
  induction n with
  | zero => intro st d; simp [absorbN]
  | succ n ih =>
    intro st d
    rw [absorbN, ih, List.drop_drop]
    congr 1
    omega

theorem absorbN_append (n : Nat) : ∀ (st : Sha256State) (m e : List Nat),
    64 * n ≤ m.length →
    absorbN n st (m ++ e) = ((absorbN n st m).1, (absorbN n st m).2 ++ e) := by
  induction n with
  | zero => intro st m e _; simp [absorbN]
  | succ n ih =>
    intro st m e h
    have h64 : 64 ≤ m.length := by omega
    rw [absorbN, absorbN]
    rw [List.take_append_eq_append_take, List.drop_append_eq_append_drop]
    rw [Nat.sub_eq_zero_of_le h64]
    simp only [List.take_zero, List.append_nil, List.drop_zero]
    rw [ih (sha256_transform st (m.take 64)) (m.drop 64) e
        (by rw [List.length_drop]; omega)]

theorem absorbN_add (a b : Nat) : ∀ (st : Sha256State) (d : List Nat),
    absorbN (a + b) st d = absorbN b (absorbN a st d).1 (absorbN a st d).2 := by
  induction a with
  | zero => intro st d; simp [absorbN, Nat.zero_add]
  | succ a ih =>
    intro st d
    have h : a + 1 + b = (a + b) + 1 := by omega
    rw [h, absorbN, absorbN, ih]

theorem absorbN_one (st : Sha256State) (d : List Nat) :
    absorbN 1 st d = (sha256_transform st (d.take 64), d.drop 64) := rfl

/-- The context reached after absorbing message `m` from a fresh `init`. -/
def ctxOf (m : List Nat) : sha256_ctx :=
  ⟨(absorb sha256_initState m).1, m.length % 2 ^ 64, (absorb sha256_initState m).2⟩

theorem ctxOf_nil : ctxOf [] = sha256_init := rfl

theorem sha256_update_ctxOf (m data : List Nat) :
    sha256_update (ctxOf m) data = ctxOf (m ++ data) := by
  have h64 : (64 : Nat) ∣ 2 ^ 64 := by decide
  have hbuff : m.length % 2 ^ 64 % 64 = m.length % 64 := Nat.mod_mod_of_dvd _ h64
  have hremlen : (absorbN (m.length / 64) sha256_initState m).2.length
      = m.length % 64 := by
    rw [absorbN_snd, List.length_drop]; omega
  have hmul : 64 * (m.length / 64) ≤ m.length := by omega
  simp only [sha256_update, ctxOf, absorb, hbuff, List.length_append, List.length_drop]
  rcases Nat.eq_zero_or_pos (m.length % 64) with hr | hr
  · -- no buffered bytes: m was consumed in whole blocks
    have hA2 : (absorbN (m.length / 64) sha256_initState m).2 = [] :=
      List.eq_nil_of_length_eq_zero (by rw [hremlen, hr])
    have hdiv : (m.length + data.length) / 64
        = m.length / 64 + data.length / 64 := by omega
    rw [hr, if_neg (lt_irrefl 0)]
    congr 1
    · rw [hdiv, absorbN_add, absorbN_append _ _ _ _ hmul, hA2]; rfl
    · omega
    · rw [hdiv, absorbN_add, absorbN_append _ _ _ _ hmul, hA2]; rfl
  · rw [if_pos hr]
    by_cases hge : 64 - m.length % 64 ≤ data.length
    · -- the incoming data completes the buffered block
      rw [if_pos hge]
      have hdiv : (m.length + data.length) / 64
          = m.length / 64 + (1 + (data.length - (64 - m.length % 64)) / 64) := by
        omega
      have hsplit :
          absorbN (1 + (data.length - (64 - m.length % 64)) / 64)
            (absorbN (m.length / 64) sha256_initState m).1
            ((absorbN (m.length / 64) sha256_initState m).2 ++ data)
          = absorbN ((data.length - (64 - m.length % 64)) / 64)
              (sha256_transform (absorbN (m.length / 64) sha256_initState m).1
                ((absorbN (m.length / 64) sha256_initState m).2
                  ++ data.take (64 - m.length % 64)))
              (data.drop (64 - m.length % 64)) := by
        rw [absorbN_add 1, absorbN_one]
        dsimp only
        rw [List.take_append_eq_append_take, List.drop_append_eq_append_drop]
        rw [List.take_of_length_le (by rw [hremlen]; omega),
            List.drop_eq_nil_of_le (by rw [hremlen]; omega), hremlen, List.nil_append]
      congr 1
      · rw [hdiv, absorbN_add, absorbN_append _ _ _ _ hmul]
        dsimp only
        rw [hsplit]
      · omega
      · rw [hdiv, absorbN_add, absorbN_append _ _ _ _ hmul]
        dsimp only
        rw [hsplit]
    · -- all incoming bytes fit in the buffer
      rw [if_neg hge]
      have hdiv : (m.length + data.length) / 64 = m.length / 64 := by omega
      congr 1
      · rw [hdiv, absorbN_append _ _ _ _ hmul]
      · omega
      · rw [hdiv, absorbN_append _ _ _ _ hmul]

theorem foldl_update_ctxOf (cs : List (List Nat)) : ∀ m : List Nat,
    cs.foldl sha256_update (ctxOf m) = ctxOf (m ++ cs.flatten) := by
  induction cs with
  | nil => intro m; simp [List.flatten_nil]
  | cons c cs ih =>
    intro m
    rw [List.foldl_cons, List.flatten_cons, sha256_update_ctxOf, ih,
        List.append_assoc]

/-- C2: feeding any message through `sha256_init` / `sha256_update` (one
call per chunk, in order) / `sha256_final` yields the same digest as the
one-shot `sha256_hash` of the concatenated message, for every chunking —
in particular at the 55-, 56- and 64-byte block boundaries. -/
theorem sha256_incremental_eq_oneshot (chunks : List (List Nat)) :
    sha256_final (chunks.foldl sha256_update sha256_init)
      = sha256_hash chunks.flatten := by
  rw [← ctxOf_nil, foldl_update_ctxOf, List.nil_append, sha256_hash,
      ← ctxOf_nil, sha256_update_ctxOf, List.nil_append]

/-! ## Password generation (src/src/paranoid.c)

`paranoid_generate` takes the charset both as a byte list and as the
separate `charset_len` C `int` argument (the code indexes with
`buf[i] % charset_len`, never with the list length).  The output pointer
is modelled by `output_ok` (`false` = NULL) and the buffer written by the
call is returned (`none` = the call never touched the caller's buffer).
The third component of the result is the entropy remaining in the
stream. -/

def PARANOID_MAX_PASSWORD_LEN : Int := 256

def PARANOID_MAX_CHARSET_LEN : Int := 128

def PARANOID_MAX_BATCH_SIZE : Int := 2000

def PARANOID_MAX_MULTI_COUNT : Int := 10

def PARANOID_MAX_CONSTRAINED_ATTEMPTS : Nat := 100

/-- `max_valid = (256 / charset_len) * charset_len - 1`
(paranoid.c line 69 and line 728). -/
def rejection_max_valid (charset_len : Int) : Int :=
  256 / charset_len * charset_len - 1

/-- The inner accept loop of `paranoid_generate` (paranoid.c lines 86-90):
scan a batch of random bytes, keep those `≤ max_valid`, map each kept
byte through `charset[byte % charset_len]`, stop once `len` characters
are placed. -/
def fillAccept (cs : List Nat) (N maxValid len : Nat) :
    List Nat → List Nat → List Nat
  | acc, [] => acc
  | acc, b :: rest =>
    if acc.length < len then
      if b % 256 ≤ maxValid then
        fillAccept cs N maxValid len (acc ++ [cs.getD (b % 256 % N) 0]) rest
      else
        fillAccept cs N maxValid len acc rest
    else acc

/-- The outer `while (filled < length)` loop of `paranoid_generate`
(paranoid.c lines 73-91).  `fuel` bounds the number of iterations; the
caller passes `ent.length + 1`, which can never be exhausted because
every iteration either consumes at least two entropy bytes or stops (the
fuel-out branch mirrors the entropy-failure exit).  On entropy failure
the output buffer is zeroed (`memset(output, 0, length + 1)`,
paranoid.c line 81). -/
def genLoop (cs : List Nat) (N len maxValid : Nat) :
    Nat → List Nat → List Nat → Int × List Nat × List Nat
  | 0, _, ent => (-1, List.replicate (len + 1) 0, ent)
  | fuel + 1, acc, ent =>
    if acc.length < len then
      let need := min ((len - acc.length) * 2) 512
      if need ≤ ent.length then
        genLoop cs N len maxValid fuel
          (fillAccept cs N maxValid len acc (ent.take need)) (ent.drop need)
      else (-1, List.replicate (len + 1) 0, ent)
    else (0, acc ++ [0], ent)

/-- `paranoid_generate` (paranoid.c lines 56-97).  For validated
arguments `max_valid` lies in `[0, 255]`, so the C cast
`(unsigned char)max_valid` is the identity and `Int.toNat` models it. -/
def paranoid_generate (charset : Option (List Nat)) (charset_len length : Int)
    (output_ok : Bool) (ent : List Nat) : Int × Option (List Nat) × List Nat :=
  match charset with
  | none => (-2, none, ent)
  | some cs =>
    if charset_len ≤ 0 ∨ PARANOID_MAX_CHARSET_LEN < charset_len then (-2, none, ent)
    else if length ≤ 0 ∨ PARANOID_MAX_PASSWORD_LEN < length then (-2, none, ent)
    else if output_ok = false then (-2, none, ent)
    else
      let r := genLoop cs charset_len.toNat length.toNat
        (rejection_max_valid charset_len).toNat (ent.length + 1) [] ent
      (r.1, some r.2.1, r.2.2)

theorem fillAccept_mem (cs : List Nat) (maxValid len : Nat) (hN : 0 < cs.length) :
    ∀ (bytes acc : List Nat), (∀ b ∈ acc, b ∈ cs) →
      ∀ b ∈ fillAccept cs cs.length maxValid len acc bytes, b ∈ cs := by
  intro bytes
  induction bytes with
  | nil => intro acc hacc; simpa [fillAccept] using hacc
  | cons x rest ih =>
    intro acc hacc
    rw [fillAccept]
    by_cases hfill : acc.length < len
    · rw [if_pos hfill]
      by_cases hacc2 : x % 256 ≤ maxValid
      · rw [if_pos hacc2]
        apply ih
        intro b hb
        rcases List.mem_append.mp hb with h | h
        · exact hacc b h
        · rcases List.mem_singleton.mp h with rfl
          rw [List.getD_eq_getElem cs 0 (Nat.mod_lt _ hN)]
          exact List.getElem_mem _
      · rw [if_neg hacc2]; exact ih acc hacc
    · rw [if_neg hfill]; exact hacc

theorem fillAccept_length (cs : List Nat) (N maxValid len : Nat) :
    ∀ (bytes acc : List Nat), acc.length ≤ len →
      (fillAccept cs N maxValid len acc bytes).length ≤ len := by
  intro bytes
  induction bytes with
  | nil => intro acc h; simpa [fillAccept] using h
  | cons x rest ih =>
    intro acc h
    rw [fillAccept]
    by_cases hfill : acc.length < len
    · rw [if_pos hfill]
      by_cases hacc2 : x % 256 ≤ maxValid
      · rw [if_pos hacc2]
        exact ih _ (by rw [List.length_append]; simpa using hfill)
      · rw [if_neg hacc2]; exact ih acc h
    · rw [if_neg hfill]; exact h

theorem genLoop_success (cs : List Nat) (len maxValid : Nat) (hN : 0 < cs.length) :
    ∀ (fuel : Nat) (acc ent : List Nat), (∀ b ∈ acc, b ∈ cs) → acc.length ≤ len →
      (genLoop cs cs.length len maxValid fuel acc ent).1 = 0 →
      ∃ pw, (genLoop cs cs.length len maxValid fuel acc ent).2.1 = pw ++ [0] ∧
        pw.length = len ∧ ∀ b ∈ pw, b ∈ cs := by
  intro fuel
  induction fuel with
  | zero => intro acc ent _ _ h0; simp [genLoop] at h0
  | succ fuel ih =>
    intro acc ent hacc hlen h0
    rw [genLoop] at h0 ⊢
    by_cases hfill : acc.length < len
    · rw [if_pos hfill] at h0 ⊢
      by_cases hent : min ((len - acc.length) * 2) 512 ≤ ent.length
      · rw [if_pos hent] at h0 ⊢
        exact ih _ _ (fillAccept_mem cs maxValid len hN _ acc hacc)
          (fillAccept_length cs cs.length maxValid len _ acc hlen) h0
      · rw [if_neg hent] at h0; simp at h0
    · rw [if_neg hfill] at h0 ⊢
      exact ⟨acc, rfl, by omega, hacc⟩

theorem genLoop_fail (cs : List Nat) (N len maxValid : Nat) :
    ∀ (fuel : Nat) (acc ent : List Nat),
      (genLoop cs N len maxValid fuel acc ent).1 ≠ 0 →
      (genLoop cs N len maxValid fuel acc ent).1 = -1 ∧
      (genLoop cs N len maxValid fuel acc ent).2.1 = List.replicate (len + 1) 0 := by
  intro fuel
  induction fuel with
  | zero => intro acc ent _; exact ⟨rfl, rfl⟩
  | succ fuel ih =>
    intro acc ent hne
    rw [genLoop] at hne ⊢
    by_cases hfill : acc.length < len
    · rw [if_pos hfill] at hne ⊢
      by_cases hent : min ((len - acc.length) * 2) 512 ≤ ent.length
      · rw [if_pos hent] at hne ⊢; exact ih _ _ hne
      · rw [if_neg hent] at hne ⊢; exact ⟨rfl, rfl⟩
    · rw [if_neg hfill] at hne ⊢
      simp at hne

/-- C3: for a valid charset (length 1..128, passed as both the list and
its C length argument) and a valid target length (1..256), whenever
`paranoid_generate` returns success it has written exactly `length`
characters, each an element of the charset, followed by a NUL terminator
at `output[length]`. -/
theorem paranoid_generate_success_shape (cs : List Nat) (L : Int) (ent : List Nat)
    (h1 : 1 ≤ (cs.length : Int)) (h2 : (cs.length : Int) ≤ 128)
    (h3 : 1 ≤ L) (h4 : L ≤ 256)
    (hok : (paranoid_generate (some cs) (cs.length : Int) L true ent).1 = 0) :
    ∃ pw, (paranoid_generate (some cs) (cs.length : Int) L true ent).2.1
        = some (pw ++ [0]) ∧
      pw.length = L.toNat ∧ ∀ b ∈ pw, b ∈ cs := by
  have hv1 : ¬((cs.length : Int) ≤ 0 ∨ PARANOID_MAX_CHARSET_LEN < (cs.length : Int)) := by
    rw [PARANOID_MAX_CHARSET_LEN]; omega
  have hv2 : ¬(L ≤ 0 ∨ PARANOID_MAX_PASSWORD_LEN < L) := by
    rw [PARANOID_MAX_PASSWORD_LEN]; omega
  simp only [paranoid_generate, if_neg hv1, if_neg hv2, Bool.true_eq_false,
    if_false, Int.toNat_natCast] at hok ⊢
  obtain ⟨pw, hpw, hlen, hmem⟩ :=
    genLoop_success cs L.toNat (rejection_max_valid (cs.length : Int)).toNat
      (by omega) (ent.length + 1) [] ent (by simp) (by simp) hok
  exact ⟨pw, by rw [hpw], hlen, hmem⟩

/-- Witness for C3 at charset "a", length 1, entropy `[0, 0]`. -/
theorem paranoid_generate_success_shape_witness :
    (paranoid_generate (some [97]) (([97] : List Nat).length : Int) 1 true [0, 0]).1 = 0 ∧
    ∃ pw, (paranoid_generate (some [97]) (([97] : List Nat).length : Int) 1 true [0, 0]).2.1
        = some (pw ++ [0]) ∧
      pw.length = (1 : Int).toNat ∧ ∀ b ∈ pw, b ∈ [97] :=
  ⟨by decide,
   paranoid_generate_success_shape [97] 1 [0, 0]
     (by decide) (by decide) (by decide) (by decide) (by decide)⟩

/-- C4: if the entropy source fails during a validly-invoked
`paranoid_generate`, the call returns the entropy-failure code `-1` and
the whole output buffer (`length + 1` bytes) is zeroed; invalid
arguments (NULL charset or output, charset length outside 1..128, target
length outside 1..256) return `-2`, which is distinct from `-1`. -/
theorem paranoid_generate_failure_modes (charset : Option (List Nat))
    (cl L : Int) (ok : Bool) (ent : List Nat) :
    ((charset = none ∨ cl ≤ 0 ∨ 128 < cl ∨ L ≤ 0 ∨ 256 < L ∨ ok = false) →
      (paranoid_generate charset cl L ok ent).1 = -2) ∧
    (∀ cs, charset = some cs → 1 ≤ cl → cl ≤ 128 → 1 ≤ L → L ≤ 256 → ok = true →
      (paranoid_generate charset cl L ok ent).1 ≠ 0 →
      (paranoid_generate charset cl L ok ent).1 = -1 ∧
      (paranoid_generate charset cl L ok ent).2.1
        = some (List.replicate (L.toNat + 1) 0)) ∧
    ((-2 : Int) ≠ -1 ∧ (paranoid_generate none cl L ok ent).1 = -2) := by
  refine ⟨?_, ?_, by decide, rfl⟩
  · intro h
    match charset with
    | none => rfl
    | some cs =>
      simp only [paranoid_generate, PARANOID_MAX_CHARSET_LEN, PARANOID_MAX_PASSWORD_LEN]
      rcases h with h | h | h | h | h | h
      · exact absurd h (by simp)
      · rw [if_pos (Or.inl h)]
      · rw [if_pos (Or.inr h)]
      · by_cases hcl : cl ≤ 0 ∨ (128 : Int) < cl
        · rw [if_pos hcl]
        · rw [if_neg hcl, if_pos (Or.inl h)]
      · by_cases hcl : cl ≤ 0 ∨ (128 : Int) < cl
        · rw [if_pos hcl]
        · rw [if_neg hcl, if_pos (Or.inr h)]
      · by_cases hcl : cl ≤ 0 ∨ (128 : Int) < cl
        · rw [if_pos hcl]
        · by_cases hL : L ≤ 0 ∨ (256 : Int) < L
          · rw [if_neg hcl, if_pos hL]
          · rw [if_neg hcl, if_neg hL, if_pos h]
  · rintro cs rfl hcl1 hcl2 hL1 hL2 rfl hne
    have hv1 : ¬(cl ≤ 0 ∨ PARANOID_MAX_CHARSET_LEN < cl) := by
      rw [PARANOID_MAX_CHARSET_LEN]; omega
    have hv2 : ¬(L ≤ 0 ∨ PARANOID_MAX_PASSWORD_LEN < L) := by
      rw [PARANOID_MAX_PASSWORD_LEN]; omega
    simp only [paranoid_generate, if_neg hv1, if_neg hv2, Bool.true_eq_false,
      if_false] at hne ⊢
    obtain ⟨ha, hb⟩ := genLoop_fail cs cl.toNat L.toNat
      (rejection_max_valid cl).toNat (ent.length + 1) [] ent hne
    exact ⟨ha, by rw [hb]⟩

/-- Witness for C4: entropy exhausted immediately at charset "a",
length 1 — the call fails with `-1` and the buffer is zeroed. -/
theorem paranoid_generate_failure_modes_witness :
    (paranoid_generate (some [97]) 1 1 true []).1 = -1 ∧
    (paranoid_generate (some [97]) 1 1 true []).2.1
      = some (List.replicate ((1 : Int).toNat + 1) 0) :=
  (paranoid_generate_failure_modes (some [97]) 1 1 true []).2.1 [97] rfl
    (by decide) (by decide) (by decide) (by decide) rfl (by decide)

/-- C5: for every charset size `N` in 1..128, the rejection-sampling
bound `max_valid = (256 / N) * N - 1` lies in `[0, 255]` and satisfies
`max_valid % N = N - 1`, so the accepted range `[0, max_valid]` has
cardinality an exact multiple of `N`. -/
theorem rejection_max_valid_range (N : Int) (h1 : 1 ≤ N) (h2 : N ≤ 128) :
    0 ≤ rejection_max_valid N ∧ rejection_max_valid N ≤ 255 ∧
      rejection_max_valid N % N = N - 1 := by
  interval_cases N <;> decide

/-- Witness for C5 at `N = 7`. -/
theorem rejection_max_valid_range_witness :
    0 ≤ rejection_max_valid 7 ∧ rejection_max_valid 7 ≤ 255 ∧
      rejection_max_valid 7 % 7 = 7 - 1 :=
  rejection_max_valid_range 7 (by decide) (by decide)

/-- A validly-invoked `paranoid_generate` either succeeds or fails with
`-1` and a zeroed buffer (shared helper for the multi-password,
constrained and audit paths). -/
theorem paranoid_generate_valid_classify (cs : List Nat) (cl L : Int) (ent : List Nat)
    (hcl1 : 1 ≤ cl) (hcl2 : cl ≤ 128) (hL1 : 1 ≤ L) (hL2 : L ≤ 256) :
    (paranoid_generate (some cs) cl L true ent).1 = 0 ∨
    ((paranoid_generate (some cs) cl L true ent).1 = -1 ∧
     (paranoid_generate (some cs) cl L true ent).2.1
        = some (List.replicate (L.toNat + 1) 0)) := by
  have hv1 : ¬(cl ≤ 0 ∨ PARANOID_MAX_CHARSET_LEN < cl) := by
    rw [PARANOID_MAX_CHARSET_LEN]; omega
  have hv2 : ¬(L ≤ 0 ∨ PARANOID_MAX_PASSWORD_LEN < L) := by
    rw [PARANOID_MAX_PASSWORD_LEN]; omega
  simp only [paranoid_generate, if_neg hv1, if_neg hv2, Bool.true_eq_false, if_false]
  by_cases h0 : (genLoop cs cl.toNat L.toNat (rejection_max_valid cl).toNat
      (ent.length + 1) [] ent).1 = 0
  · exact Or.inl h0
  · obtain ⟨ha, hb⟩ := genLoop_fail cs cl.toNat L.toNat
      (rejection_max_valid cl).toNat (ent.length + 1) [] ent h0
    exact Or.inr ⟨ha, by rw [hb]⟩

/-! ## Multi-password generation (paranoid.c lines 329-358) -/

/-- The per-password loop of `paranoid_generate_multiple`: password `i`
occupies bytes `i * (length + 1) ..` of the output region; on any
failure the whole `count * (length + 1)`-byte region is zeroed
(`memset`, paranoid.c line 352) and the failing code returned. -/
def genMulti (cs : List Nat) (cl L : Int) (region : Nat) :
    Nat → List Nat → List Nat → Int × Option (List Nat) × List Nat
  | 0, acc, ent => (0, some acc, ent)
  | n + 1, acc, ent =>
    let r := paranoid_generate (some cs) cl L true ent
    if r.1 = 0 then
      genMulti cs cl L region n (acc ++ (r.2.1).getD []) r.2.2
    else (r.1, some (List.replicate region 0), r.2.2)

/-- `paranoid_generate_multiple` (paranoid.c lines 329-358). -/
def paranoid_generate_multiple (charset : Option (List Nat)) (cl L count : Int)
    (output_ok : Bool) (ent : List Nat) : Int × Option (List Nat) × List Nat :=
  match charset with
  | none => (-2, none, ent)
  | some cs =>
    if cl ≤ 0 ∨ PARANOID_MAX_CHARSET_LEN < cl then (-2, none, ent)
    else if L ≤ 0 ∨ PARANOID_MAX_PASSWORD_LEN < L then (-2, none, ent)
    else if count ≤ 0 ∨ PARANOID_MAX_MULTI_COUNT < count then (-2, none, ent)
    else if output_ok = false then (-2, none, ent)
    else genMulti cs cl L (count.toNat * (L.toNat + 1)) count.toNat [] ent

theorem genMulti_fail (cs : List Nat) (cl L : Int) (region : Nat)
    (hcl1 : 1 ≤ cl) (hcl2 : cl ≤ 128) (hL1 : 1 ≤ L) (hL2 : L ≤ 256) :
    ∀ (n : Nat) (acc ent : List Nat),
      (genMulti cs cl L region n acc ent).1 ≠ 0 →
      (genMulti cs cl L region n acc ent).1 = -1 ∧
      (genMulti cs cl L region n acc ent).2.1 = some (List.replicate region 0) := by
  intro n
  induction n with
  | zero => intro acc ent h; simp [genMulti] at h
  | succ n ih =>
    intro acc ent h
    simp only [genMulti] at h ⊢
    rcases paranoid_generate_valid_classify cs cl L ent hcl1 hcl2 hL1 hL2 with
      h0 | ⟨h1, _⟩
    · rw [if_pos h0] at h ⊢
      exact ih _ _ h
    · rw [if_neg (by rw [h1]; decide)] at h ⊢
      exact ⟨h1, rfl⟩

/-- C10: for valid arguments, if any of the `count` generations inside
`paranoid_generate_multiple` fails — including after earlier passwords
were already written — the entire `count * (length + 1)`-byte output
region is zeroed and the error code `-1` is returned, so no password
material is left in the caller's buffer. -/
theorem paranoid_generate_multiple_fail_zeroes (cs : List Nat) (cl L count : Int)
    (ent : List Nat) (hcl1 : 1 ≤ cl) (hcl2 : cl ≤ 128) (hL1 : 1 ≤ L) (hL2 : L ≤ 256)
    (hc1 : 1 ≤ count) (hc2 : count ≤ 10)
    (hne : (paranoid_generate_multiple (some cs) cl L count true ent).1 ≠ 0) :
    (paranoid_generate_multiple (some cs) cl L count true ent).1 = -1 ∧
    (paranoid_generate_multiple (some cs) cl L count true ent).2.1
      = some (List.replicate (count.toNat * (L.toNat + 1)) 0) := by
  have hv1 : ¬(cl ≤ 0 ∨ PARANOID_MAX_CHARSET_LEN < cl) := by
    rw [PARANOID_MAX_CHARSET_LEN]; omega
  have hv2 : ¬(L ≤ 0 ∨ PARANOID_MAX_PASSWORD_LEN < L) := by
    rw [PARANOID_MAX_PASSWORD_LEN]; omega
  have hv3 : ¬(count ≤ 0 ∨ PARANOID_MAX_MULTI_COUNT < count) := by
    rw [PARANOID_MAX_MULTI_COUNT]; omega
  simp only [paranoid_generate_multiple, if_neg hv1, if_neg hv2, if_neg hv3,
    Bool.true_eq_false, if_false] at hne ⊢
  exact genMulti_fail cs cl L _ hcl1 hcl2 hL1 hL2 count.toNat [] ent hne

/-- Witness for C10: charset "a", length 1, count 2, entropy for exactly
one password — the second generation fails and the whole 4-byte region
is zeroed. -/
theorem paranoid_generate_multiple_fail_zeroes_witness :
    (paranoid_generate_multiple (some [97]) 1 1 2 true [0, 0]).1 = -1 ∧
    (paranoid_generate_multiple (some [97]) 1 1 2 true [0, 0]).2.1
      = some (List.replicate ((2 : Int).toNat * ((1 : Int).toNat + 1)) 0) :=
  paranoid_generate_multiple_fail_zeroes [97] 1 1 2 [0, 0]
    (by decide) (by decide) (by decide) (by decide) (by decide) (by decide)
    (by decide)

/-! ## Constrained generation (paranoid.c lines 417-501)

Character classification follows `count_char_types`
(paranoid.c lines 303-323): the four classes are mutually exclusive and
a symbol is anything that is not lowercase, uppercase or digit. -/

def isLowerByte (c : Nat) : Bool := decide (97 ≤ c % 256 ∧ c % 256 ≤ 122)

def isUpperByte (c : Nat) : Bool := decide (65 ≤ c % 256 ∧ c % 256 ≤ 90)

def isDigitByte (c : Nat) : Bool := decide (48 ≤ c % 256 ∧ c % 256 ≤ 57)

def isSymbolByte (c : Nat) : Bool := !isLowerByte c && !isUpperByte c && !isDigitByte c

/-- `paranoid_char_requirements_t`. -/
structure paranoid_char_requirements where
  min_lowercase : Int
  min_uppercase : Int
  min_digits : Int
  min_symbols : Int
deriving DecidableEq

/-- `count_char_types` (paranoid.c lines 303-323): the four per-class
counters `(lower, upper, digits, symbols)`. -/
def count_char_types (pw : List Nat) : Int × Int × Int × Int :=
  pw.foldl (fun acc c =>
    if isLowerByte c then (acc.1 + 1, acc.2.1, acc.2.2.1, acc.2.2.2)
    else if isUpperByte c then (acc.1, acc.2.1 + 1, acc.2.2.1, acc.2.2.2)
    else if isDigitByte c then (acc.1, acc.2.1, acc.2.2.1 + 1, acc.2.2.2)
    else (acc.1, acc.2.1, acc.2.2.1, acc.2.2.2 + 1)) (0, 0, 0, 0)

/-- `check_requirements_possible` (paranoid.c lines 423-451): `0` when
the requirements can be met, `-3` when they are statically impossible. -/
def check_requirements_possible (cs : List Nat) (length : Int)
    (reqs : paranoid_char_requirements) : Int :=
  if length < reqs.min_lowercase + reqs.min_uppercase + reqs.min_digits + reqs.min_symbols
    then -3
  else if 0 < reqs.min_lowercase ∧ cs.any isLowerByte = false then -3
  else if 0 < reqs.min_uppercase ∧ cs.any isUpperByte = false then -3
  else if 0 < reqs.min_digits ∧ cs.any isDigitByte = false then -3
  else if 0 < reqs.min_symbols ∧ cs.any isSymbolByte = false then -3
  else 0

/-- The generate-and-test retry loop of `paranoid_generate_constrained`
(paranoid.c lines 480-500), counting down from the 100-attempt ceiling;
exhaustion zeroes the buffer and returns `-4`. -/
def constrainedLoop (cs : List Nat) (cl L : Int) (rq : paranoid_char_requirements) :
    Nat → List Nat → Int × Option (List Nat) × List Nat
  | 0, ent => (-4, some (List.replicate (L.toNat + 1) 0), ent)
  | n + 1, ent =>
    let r := paranoid_generate (some cs) cl L true ent
    if r.1 = 0 then
      let c := count_char_types ((r.2.1.getD []).take L.toNat)
      if rq.min_lowercase ≤ c.1 ∧ rq.min_uppercase ≤ c.2.1 ∧
         rq.min_digits ≤ c.2.2.1 ∧ rq.min_symbols ≤ c.2.2.2 then
        (0, r.2.1, r.2.2)
      else constrainedLoop cs cl L rq n r.2.2
    else r

/-- `paranoid_generate_constrained` (paranoid.c lines 453-501). -/
def paranoid_generate_constrained (charset : Option (List Nat)) (cl L : Int)
    (reqs : Option paranoid_char_requirements) (output_ok : Bool) (ent : List Nat) :
    Int × Option (List Nat) × List Nat :=
  match charset with
  | none => (-2, none, ent)
  | some cs =>
    if cl ≤ 0 ∨ PARANOID_MAX_CHARSET_LEN < cl then (-2, none, ent)
    else if L ≤ 0 ∨ PARANOID_MAX_PASSWORD_LEN < L then (-2, none, ent)
    else
      match reqs with
      | none => (-2, none, ent)
      | some rq =>
        if output_ok = false then (-2, none, ent)
        else if rq.min_lowercase < 0 ∨ rq.min_uppercase < 0 ∨
                rq.min_digits < 0 ∨ rq.min_symbols < 0 then (-2, none, ent)
        else if check_requirements_possible cs L rq ≠ 0 then
          (check_requirements_possible cs L rq, none, ent)
        else constrainedLoop cs cl L rq PARANOID_MAX_CONSTRAINED_ATTEMPTS ent

theorem check_requirements_possible_vals (cs : List Nat) (L : Int)
    (rq : paranoid_char_requirements) :
    check_requirements_possible cs L rq = 0 ∨
    check_requirements_possible cs L rq = -3 := by
  rw [check_requirements_possible]
  split_ifs <;> simp

theorem constrainedLoop_exhausted (cs : List Nat) (cl L : Int)
    (rq : paranoid_char_requirements)
    (hcl1 : 1 ≤ cl) (hcl2 : cl ≤ 128) (hL1 : 1 ≤ L) (hL2 : L ≤ 256) :
    ∀ (n : Nat) (ent : List Nat),
      (constrainedLoop cs cl L rq n ent).1 = -4 →
      (constrainedLoop cs cl L rq n ent).2.1
        = some (List.replicate (L.toNat + 1) 0) := by
  intro n
  induction n with
  | zero => intro ent _; rfl
  | succ n ih =>
    intro ent h4
    simp only [constrainedLoop] at h4 ⊢
    rcases paranoid_generate_valid_classify cs cl L ent hcl1 hcl2 hL1 hL2 with
      h0 | ⟨h1, _⟩
    · rw [if_pos h0] at h4 ⊢
      by_cases hreq : rq.min_lowercase ≤ (count_char_types
            (((paranoid_generate (some cs) cl L true ent).2.1.getD []).take L.toNat)).1 ∧
          rq.min_uppercase ≤ (count_char_types
            (((paranoid_generate (some cs) cl L true ent).2.1.getD []).take L.toNat)).2.1 ∧
          rq.min_digits ≤ (count_char_types
            (((paranoid_generate (some cs) cl L true ent).2.1.getD []).take L.toNat)).2.2.1 ∧
          rq.min_symbols ≤ (count_char_types
            (((paranoid_generate (some cs) cl L true ent).2.1.getD []).take L.toNat)).2.2.2
      · rw [if_pos hreq] at h4
        simp at h4
      · rw [if_neg hreq] at h4 ⊢
        exact ih _ h4
    · rw [if_neg (by rw [h1]; decide)] at h4
      rw [h1] at h4
      simp at h4

/-- C7: with valid arguments, `paranoid_generate_constrained` returns the
impossible-constraints code `-3` — leaving the output buffer untouched
and consuming no entropy — exactly when the minimums sum past the target
length or a class with a nonzero minimum has no member in the charset;
if the requirements are possible but no compliant password is found
within the 100-attempt ceiling, the buffer is zeroed and the distinct
exhausted-attempts code `-4` is returned. -/
theorem paranoid_generate_constrained_spec (cs : List Nat) (cl L : Int)
    (rq : paranoid_char_requirements) (ent : List Nat)
    (hcl1 : 1 ≤ cl) (hcl2 : cl ≤ 128) (hL1 : 1 ≤ L) (hL2 : L ≤ 256)
    (hr1 : 0 ≤ rq.min_lowercase) (hr2 : 0 ≤ rq.min_uppercase)
    (hr3 : 0 ≤ rq.min_digits) (hr4 : 0 ≤ rq.min_symbols) :
    (check_requirements_possible cs L rq = -3 →
      paranoid_generate_constrained (some cs) cl L (some rq) true ent
        = (-3, none, ent)) ∧
    (check_requirements_possible cs L rq = -3 ↔
      (L < rq.min_lowercase + rq.min_uppercase + rq.min_digits + rq.min_symbols ∨
       (0 < rq.min_lowercase ∧ ∀ x ∈ cs, isLowerByte x = false) ∨
       (0 < rq.min_uppercase ∧ ∀ x ∈ cs, isUpperByte x = false) ∨
       (0 < rq.min_digits ∧ ∀ x ∈ cs, isDigitByte x = false) ∨
       (0 < rq.min_symbols ∧ ∀ x ∈ cs, isSymbolByte x = false))) ∧
    ((paranoid_generate_constrained (some cs) cl L (some rq) true ent).1 = -4 →
      (paranoid_generate_constrained (some cs) cl L (some rq) true ent).2.1
        = some (List.replicate (L.toNat + 1) 0)) ∧
    (PARANOID_MAX_CONSTRAINED_ATTEMPTS = 100 ∧
     (-4 : Int) ≠ -3 ∧ (-4 : Int) ≠ -2 ∧ (-4 : Int) ≠ -1 ∧ (-4 : Int) ≠ 0 ∧
     (-3 : Int) ≠ -2 ∧ (-3 : Int) ≠ -1 ∧ (-3 : Int) ≠ 0) := by
  have hv1 : ¬(cl ≤ 0 ∨ PARANOID_MAX_CHARSET_LEN < cl) := by
    rw [PARANOID_MAX_CHARSET_LEN]; omega
  have hv2 : ¬(L ≤ 0 ∨ PARANOID_MAX_PASSWORD_LEN < L) := by
    rw [PARANOID_MAX_PASSWORD_LEN]; omega
  have hv3 : ¬(rq.min_lowercase < 0 ∨ rq.min_uppercase < 0 ∨
      rq.min_digits < 0 ∨ rq.min_symbols < 0) := by omega
  refine ⟨?_, ?_, ?_, rfl, by decide, by decide, by decide, by decide,
    by decide, by decide, by decide⟩
  · intro hchk
    simp only [paranoid_generate_constrained, if_neg hv1, if_neg hv2,
      Bool.true_eq_false, if_false, if_neg hv3, hchk]
    rw [if_pos (by decide)]
  · rw [check_requirements_possible]
    have e1 : (cs.any isLowerByte = false) ↔ ∀ x ∈ cs, isLowerByte x = false := by
      simp [List.any_eq_false]
    have e2 : (cs.any isUpperByte = false) ↔ ∀ x ∈ cs, isUpperByte x = false := by
      simp [List.any_eq_false]
    have e3 : (cs.any isDigitByte = false) ↔ ∀ x ∈ cs, isDigitByte x = false := by
      simp [List.any_eq_false]
    have e4 : (cs.any isSymbolByte = false) ↔ ∀ x ∈ cs, isSymbolByte x = false := by
      simp [List.any_eq_false]
    split_ifs with g1 g2 g3 g4 g5
    · exact ⟨fun _ => Or.inl g1, fun _ => rfl⟩
    · rw [e1] at g2
      exact ⟨fun _ => Or.inr (Or.inl g2), fun _ => rfl⟩
    · rw [e2] at g3
      exact ⟨fun _ => Or.inr (Or.inr (Or.inl g3)), fun _ => rfl⟩
    · rw [e3] at g4
      exact ⟨fun _ => Or.inr (Or.inr (Or.inr (Or.inl g4))), fun _ => rfl⟩
    · rw [e4] at g5
      exact ⟨fun _ => Or.inr (Or.inr (Or.inr (Or.inr g5))), fun _ => rfl⟩
    · rw [e1] at g2; rw [e2] at g3; rw [e3] at g4; rw [e4] at g5
      constructor
      · intro h; exact absurd h (by decide)
      · intro h
        rcases h with h | h | h | h | h
        · exact absurd h g1
        · exact absurd h g2
        · exact absurd h g3
        · exact absurd h g4
        · exact absurd h g5
  · intro h4
    rcases check_requirements_possible_vals cs L rq with hchk | hchk
    · simp only [paranoid_generate_constrained, if_neg hv1, if_neg hv2,
        Bool.true_eq_false, if_false, if_neg hv3, hchk] at h4 ⊢
      rw [if_neg (by decide)] at h4 ⊢
      exact constrainedLoop_exhausted cs cl L rq hcl1 hcl2 hL1 hL2 _ ent h4
    · simp only [paranoid_generate_constrained, if_neg hv1, if_neg hv2,
        Bool.true_eq_false, if_false, if_neg hv3, hchk] at h4
      rw [if_pos (by decide)] at h4
      simp at h4

/-- Witness for C7: charset "a" with a one-uppercase requirement at
length 1 is impossible — the call returns `-3` untouched. -/
theorem paranoid_generate_constrained_spec_witness :
    check_requirements_possible [97] 1 ⟨0, 1, 0, 0⟩ = -3 ∧
    paranoid_generate_constrained (some [97]) 1 1 (some ⟨0, 1, 0, 0⟩) true []
      = (-3, none, []) :=
  ⟨by decide,
   (paranoid_generate_constrained_spec [97] 1 1 ⟨0, 1, 0, 0⟩ []
      (by decide) (by decide) (by decide) (by decide) (by decide) (by decide)
      (by decide) (by decide)).1 (by decide)⟩

/-! ## Chi-squared statistic (paranoid.c lines 149-186)

The statistic, the frequency counting and the degrees of freedom are
exact integer/rational computations and are modelled over `ℚ` (the C
`double` arithmetic is exact on the claim's instances).  The
Wilson–Hilferty p-value that follows in the C function needs
`pow`/`sqrt`/`exp` and is abstracted as an oracle in the audit model
below.  The function reads `total = num_passwords * pw_length` bytes of
the pooled batch (paranoid.c line 162-165). -/

/-- `freq[(unsigned char)charset[i]]`: occurrences of byte `c` in the
pooled batch. -/
def byteFreq (bytes : List Nat) (c : Nat) : Nat := bytes.count (c % 256)

/-- The `total` bytes of the batch that the counting loop reads. -/
def chiBytes (data : List Nat) (num_passwords pw_length : Nat) : List Nat :=
  (data.take (num_passwords * pw_length)).map (fun b => b % 256)

/-- The chi-squared statistic (paranoid.c lines 167-174). -/
def paranoid_chi_squared_stat (data : List Nat) (num_passwords pw_length : Nat)
    (cs : List Nat) : ℚ :=
  let expected : ℚ := ((num_passwords * pw_length : ℕ) : ℚ) / (cs.length : ℚ)
  (cs.map (fun c =>
      ((byteFreq (chiBytes data num_passwords pw_length) c : ℚ) - expected)
        * ((byteFreq (chiBytes data num_passwords pw_length) c : ℚ) - expected)
        / expected)).sum

/-- `df = charset_len - 1` (paranoid.c line 176). -/
def paranoid_chi_squared_df (cs : List Nat) : Int := (cs.length : Int) - 1

theorem list_map_sum_eq_range_sum (f : Nat → ℚ) : ∀ cs : List Nat,
    (cs.map f).sum = ∑ i ∈ Finset.range cs.length, f (cs.getD i 0) := by
  intro cs
  induction cs with
  | nil => simp
  | cons c cs ih =>
    rw [List.map_cons, List.sum_cons, ih, List.length_cons, Finset.sum_range_succ']
    simp only [List.getD_cons_succ, List.getD_cons_zero]
    exact add_comm _ _

/-- C6: the degrees of freedom are exactly `N - 1`; the statistic is the
sum over the `N` charset characters of `(observed - expected)^2 /
expected` with `expected = total / N`; a batch with equal per-character
counts yields statistic `0`; and 3000 samples over a 3-character charset
that are all one character yield statistic `6000` (with `df = 2`). -/
theorem paranoid_chi_squared_spec :
    (∀ cs : List Nat, paranoid_chi_squared_df cs = (cs.length : Int) - 1) ∧
    (∀ (data : List Nat) (np pl : Nat) (cs : List Nat),
      paranoid_chi_squared_stat data np pl cs
        = ∑ i ∈ Finset.range cs.length,
            ((byteFreq (chiBytes data np pl) (cs.getD i 0) : ℚ)
                - ((np * pl : ℕ) : ℚ) / (cs.length : ℚ))
              * ((byteFreq (chiBytes data np pl) (cs.getD i 0) : ℚ)
                - ((np * pl : ℕ) : ℚ) / (cs.length : ℚ))
              / (((np * pl : ℕ) : ℚ) / (cs.length : ℚ))) ∧
    (∀ (data : List Nat) (np pl : Nat) (cs : List Nat) (k : Nat),
      (∀ c ∈ cs, byteFreq (chiBytes data np pl) c = k) →
      np * pl = cs.length * k →
      paranoid_chi_squared_stat data np pl cs = 0) ∧
    (paranoid_chi_squared_stat (List.replicate 3000 97) 1000 3 [97, 98, 99] = 6000 ∧
     paranoid_chi_squared_df [97, 98, 99] = 2) := by
  refine ⟨fun cs => rfl, ?_, ?_, ?_, by decide⟩
  · intro data np pl cs
    exact list_map_sum_eq_range_sum _ cs
  · intro data np pl cs k hk htot
    rw [paranoid_chi_squared_stat]
    apply List.sum_eq_zero
    intro x hx
    obtain ⟨c, hc, rfl⟩ := List.mem_map.mp hx
    have hN : (cs.length : ℚ) ≠ 0 := by
      have := List.length_pos.mpr (List.ne_nil_of_mem hc)
      exact_mod_cast Nat.pos_iff_ne_zero.mp this
    have hexp : ((np * pl : ℕ) : ℚ) / (cs.length : ℚ) = (k : ℚ) := by
      rw [htot]
      push_cast
      exact mul_div_cancel_left₀ _ hN
    rw [hk c hc, hexp, sub_self, zero_mul, zero_div]
  · rw [paranoid_chi_squared_stat, chiBytes]
    simp only [List.take_replicate, List.map_replicate]
    norm_num [byteFreq, List.count_replicate]

/-- Witness for C6 (equal-counts clause) at a two-character batch with
one occurrence of each charset character. -/
theorem paranoid_chi_squared_spec_witness :
    (∀ c ∈ [97, 98], byteFreq (chiBytes [97, 98] 1 2) c = 1) ∧
    paranoid_chi_squared_stat [97, 98] 1 2 [97, 98] = 0 :=
  ⟨by decide, paranoid_chi_squared_spec.2.2.1 [97, 98] 1 2 [97, 98] 1
    (by decide) (by decide)⟩

/-! ## Audit result record and compliance frameworks
(include/paranoid.h lines 89-161, paranoid.c lines 513-629)

`double` fields are modelled as `ℚ`; the values the C code stores in
them via `log`/`exp`/`pow` are produced by the abstract `RealOps` oracle
of the audit model below, which leaves every branch decision of the
audit pipeline intact (the pipeline never branches on them to abort).
The `name`/`description` display strings of a framework carry no
behaviour and are omitted. -/

structure paranoid_audit_result where
  password : List Nat
  sha256_hex : List Nat
  password_length : Int
  charset_size : Int
  chi2_statistic : ℚ
  chi2_df : Int
  chi2_p_value : ℚ
  chi2_pass : Int
  serial_correlation : ℚ
  serial_pass : Int
  batch_size : Int
  duplicates : Int
  collision_pass : Int
  bits_per_char : ℚ
  total_entropy : ℚ
  log10_search_space : ℚ
  brute_force_years : ℚ
  nist_memorized : Int
  nist_high_value : Int
  nist_crypto_equiv : Int
  nist_post_quantum : Int
  collision_probability : ℚ
  passwords_for_50pct : ℚ
  rejection_max_valid : Int
  rejection_rate_pct : ℚ
  pattern_issues : Int
  all_pass : Int
  current_stage : Int
  num_passwords : Int
  compliance_nist : Int
  compliance_pci_dss : Int
  compliance_hipaa : Int
  compliance_soc2 : Int
  compliance_gdpr : Int
  compliance_iso27001 : Int
  count_lowercase : Int
  count_uppercase : Int
  count_digits : Int
  count_symbols : Int
deriving DecidableEq

/-- `memset(result, 0, sizeof(*result))` (paranoid.c line 647). -/
def zeroAuditResult : paranoid_audit_result :=
  ⟨[], [], 0, 0, 0, 0, 0, 0, 0, 0, 0, 0, 0, 0, 0, 0, 0, 0, 0, 0, 0,
   0, 0, 0, 0, 0, 0, 0, 0, 0, 0, 0, 0, 0, 0, 0, 0, 0, 0⟩

/-- `paranoid_compliance_framework_t` (paranoid.h): threshold table. -/
structure paranoid_compliance_framework where
  min_length : Int
  min_entropy_bits : ℚ
  require_mixed_case : Int
  require_digits : Int
  require_symbols : Int
deriving DecidableEq

/-- NIST SP 800-63B thresholds (paranoid.c lines 513-527). -/
def PARANOID_COMPLIANCE_NIST : paranoid_compliance_framework := ⟨8, 30, 0, 0, 0⟩

/-- PCI DSS 4.0 thresholds (paranoid.c lines 529-540). -/
def PARANOID_COMPLIANCE_PCI_DSS : paranoid_compliance_framework := ⟨12, 60, 1, 1, 0⟩

/-- HIPAA thresholds (paranoid.c lines 542-554). -/
def PARANOID_COMPLIANCE_HIPAA : paranoid_compliance_framework := ⟨8, 50, 1, 1, 1⟩

/-- SOC 2 thresholds (paranoid.c lines 556-567). -/
def PARANOID_COMPLIANCE_SOC2 : paranoid_compliance_framework := ⟨8, 50, 1, 1, 0⟩

/-- GDPR/ENISA thresholds (paranoid.c lines 569-581). -/
def PARANOID_COMPLIANCE_GDPR : paranoid_compliance_framework := ⟨10, 80, 1, 1, 1⟩

/-- ISO 27001 thresholds (paranoid.c lines 583-595). -/
def PARANOID_COMPLIANCE_ISO27001 : paranoid_compliance_framework := ⟨12, 90, 1, 1, 1⟩

/-- `paranoid_check_compliance` (paranoid.c lines 597-629); a NULL
result or framework pointer yields 0.  A C truthiness test
`if (framework->require_x)` is `≠ 0`. -/
def paranoid_check_compliance (result : Option paranoid_audit_result)
    (framework : Option paranoid_compliance_framework) : Int :=
  match result, framework with
  | none, _ => 0
  | some _, none => 0
  | some r, some f =>
    if r.password_length < f.min_length then 0
    else if r.total_entropy < f.min_entropy_bits then 0
    else if f.require_mixed_case ≠ 0 ∧ (r.count_lowercase = 0 ∨ r.count_uppercase = 0)
      then 0
    else if f.require_digits ≠ 0 ∧ r.count_digits = 0 then 0
    else if f.require_symbols ≠ 0 ∧ r.count_symbols = 0 then 0
    else 1

/-- C8: compliance holds exactly when the password length reaches the
framework minimum, the total entropy reaches the framework minimum bits,
and every required composition class has a nonzero count; in particular
a result shorter than the framework minimum is never compliant,
regardless of entropy. -/
theorem paranoid_check_compliance_spec (r : paranoid_audit_result)
    (f : paranoid_compliance_framework) :
    (paranoid_check_compliance (some r) (some f) = 1 ↔
      (f.min_length ≤ r.password_length ∧
       f.min_entropy_bits ≤ r.total_entropy ∧
       (f.require_mixed_case ≠ 0 → r.count_lowercase ≠ 0 ∧ r.count_uppercase ≠ 0) ∧
       (f.require_digits ≠ 0 → r.count_digits ≠ 0) ∧
       (f.require_symbols ≠ 0 → r.count_symbols ≠ 0))) ∧
    (r.password_length < f.min_length →
      paranoid_check_compliance (some r) (some f) = 0) ∧
    (paranoid_check_compliance (some r) (some f) = 0 ∨
     paranoid_check_compliance (some r) (some f) = 1) := by
  rw [paranoid_check_compliance]
  split_ifs with g1 g2 g3 g4 g5
  · refine ⟨⟨fun h => absurd h (by decide), fun h => absurd g1 (not_lt.mpr h.1)⟩,
      fun _ => rfl, Or.inl rfl⟩
  · refine ⟨⟨fun h => absurd h (by decide), fun h => absurd g2 (not_lt.mpr h.2.1)⟩,
      fun _ => absurd g1 (by omega), Or.inl rfl⟩
  · refine ⟨⟨fun h => absurd h (by decide), ?_⟩, fun _ => absurd g1 (by omega),
      Or.inl rfl⟩
    intro h
    obtain ⟨hl, hu⟩ := h.2.2.1 g3.1
    rcases g3.2 with h0 | h0
    · exact absurd h0 hl
    · exact absurd h0 hu
  · refine ⟨⟨fun h => absurd h (by decide), ?_⟩, fun _ => absurd g1 (by omega),
      Or.inl rfl⟩
    intro h
    exact absurd g4.2 (h.2.2.2.1 g4.1)
  · refine ⟨⟨fun h => absurd h (by decide), ?_⟩, fun _ => absurd g1 (by omega),
      Or.inl rfl⟩
    intro h
    exact absurd g5.2 (h.2.2.2.2 g5.1)
  · refine ⟨⟨fun _ => ?_, fun _ => rfl⟩, fun hlt => absurd hlt g1, Or.inr rfl⟩
    refine ⟨not_lt.mp g1, not_lt.mp g2, ?_, ?_, ?_⟩
    · intro hm
      exact ⟨fun h0 => g3 ⟨hm, Or.inl h0⟩, fun h0 => g3 ⟨hm, Or.inr h0⟩⟩
    · intro hd h0
      exact g4 ⟨hd, h0⟩
    · intro hs h0
      exact g5 ⟨hs, h0⟩

/-- Witness for C8: a result of length 4 is not NIST-compliant (minimum
length 8) even with its entropy field far above the threshold. -/
theorem paranoid_check_compliance_spec_witness :
    paranoid_check_compliance
      (some { zeroAuditResult with password_length := 4, total_entropy := 1000 })
      (some PARANOID_COMPLIANCE_NIST) = 0 :=
  (paranoid_check_compliance_spec
      { zeroAuditResult with password_length := 4, total_entropy := 1000 }
      PARANOID_COMPLIANCE_NIST).2.1 (by decide)

/-! ## Statistical helpers of the audit pipeline
(paranoid.c lines 188-292) -/

/-- `paranoid_serial_correlation` (paranoid.c lines 188-212): lag-1
autocorrelation of the pooled batch bytes, `0` for fewer than 2 bytes or
constant data. -/
def paranoid_serial_correlation (data : List Nat) : ℚ :=
  if data.length < 2 then 0
  else
    let bytes : List ℚ := data.map (fun b => ((b % 256 : ℕ) : ℚ))
    let mean : ℚ := bytes.sum / (data.length : ℚ)
    let num := ((bytes.zip bytes.tail).map (fun p => (p.1 - mean) * (p.2 - mean))).sum
    let den := (bytes.map (fun d => (d - mean) * (d - mean))).sum
    if den = 0 then 0 else num / den

/-- The duplicate count of the `i > j` comparison loops
(paranoid.c lines 239-246): one per entry equal to some earlier entry. -/
def dupCountAux (seen : List (List Nat)) : List (List Nat) → Nat
  | [] => 0
  | h :: rest => (if h ∈ seen then 1 else 0) + dupCountAux (seen ++ [h]) rest

/-- `paranoid_count_collisions` (paranoid.c lines 214-250): SHA-256
fingerprint every password and count matches with earlier hashes; `-1`
when the hash-array allocation or a hash call fails. -/
def paranoid_count_collisions (allocOk shaOk : Bool) (passwords : List (List Nat)) :
    Int :=
  if allocOk = false then -1
  else if shaOk = false ∧ 0 < passwords.length then -1
  else
    match passwords.map sha256_hash with
    | [] => 0
    | h :: rest => (dupCountAux [h] rest : Int)

/-- Triple-repeat counter of `check_patterns` (paranoid.c lines 260-262). -/
def tripleRepeats : List Nat → Nat
  | a :: b :: c :: rest =>
    (if a % 256 = b % 256 ∧ b % 256 = c % 256 then 1 else 0) + tripleRepeats (b :: c :: rest)
  | _ => 0

/-- Ascending-run counter of `check_patterns` (paranoid.c lines 265-269). -/
def ascRuns : List Nat → Nat
  | a :: b :: c :: rest =>
    (if a % 256 + 1 = b % 256 ∧ b % 256 + 1 = c % 256 then 1 else 0)
      + ascRuns (b :: c :: rest)
  | _ => 0

/-- ASCII lowercasing used by the keyboard-walk scan
(paranoid.c lines 283-284). -/
def toLowerByte (a : Nat) : Nat :=
  if 65 ≤ a % 256 ∧ a % 256 ≤ 90 then a % 256 + 32 else a % 256

def walkMatchAt : List Nat → List Nat → Bool
  | [], _ => true
  | _ :: _, [] => false
  | w :: ws, a :: rest => if toLowerByte a = w then walkMatchAt ws rest else false

/-- Occurrences of `walk` (case-insensitively) at any position
(paranoid.c lines 277-288). -/
def walkCount (walk : List Nat) : List Nat → Nat
  | [] => 0
  | a :: rest => (if walkMatchAt walk (a :: rest) then 1 else 0) + walkCount walk rest

/-- The six keyboard-walk fragments "qwert" "asdfg" "zxcvb" "12345"
"qazws" "!@#$%" (paranoid.c lines 273-276). -/
def keyboardWalks : List (List Nat) :=
  [[113, 119, 101, 114, 116], [97, 115, 100, 102, 103], [122, 120, 99, 118, 98],
   [49, 50, 51, 52, 53], [113, 97, 122, 119, 115], [33, 64, 35, 36, 37]]

/-- `check_patterns` (paranoid.c lines 256-292). -/
def check_patterns (pw : List Nat) : Int :=
  ((tripleRepeats pw + ascRuns pw
    + (keyboardWalks.map (fun w => walkCount w pw)).sum : ℕ) : Int)

/-- The hex digit table of `paranoid_sha256_hex` (paranoid.c line 125). -/
def hexChars : List Nat :=
  [48, 49, 50, 51, 52, 53, 54, 55, 56, 57, 97, 98, 99, 100, 101, 102]

/-- `paranoid_sha256_hex` (paranoid.c lines 116-132).  `shaOk` models the
platform hash backend succeeding (the self-contained WASM backend always
does; the host backend may fail).  `input` is the NUL-terminated buffer;
`strlen` measures the bytes before the first zero byte, so a password
with an interior NUL is truncated there, exactly as in C.  The trailing
NUL of the 65-byte hex buffer is not modelled. -/
def paranoid_sha256_hex (shaOk : Bool) (input : List Nat) : Int × List Nat :=
  if shaOk = false then (-1, [])
  else
    (0, (sha256_hash (input.takeWhile (fun b => b % 256 != 0))).foldr
      (fun b acc => hexChars.getD (b >>> 4) 0 :: hexChars.getD (b &&& 15) 0 :: acc) [])

/-! ## The audit pipeline (paranoid.c lines 635-763) -/

/-- The transcendental `double` computations of stages 2 and 5
(Wilson-Hilferty p-value via `pow`/`sqrt`/`erfc`, and
`log2`/`log10`/`log`/`exp`/`pow`), which have no exact `ℚ`
representation, abstracted as an oracle.  No abort decision of the
pipeline depends on these values. -/
structure RealOps where
  chi2_pvalue : ℚ → Int → ℚ
  log2q : ℚ → ℚ
  log10q : ℚ → ℚ
  lnq : ℚ → ℚ
  expq : ℚ → ℚ
  powq : ℚ → ℚ → ℚ

/-- An all-zero oracle, used to evaluate the audit model at concrete
inputs. -/
def trivOps : RealOps :=
  ⟨fun _ _ => 0, fun _ => 0, fun _ => 0, fun _ => 0, fun _ => 0, fun _ _ => 0⟩

/-- Split the concatenated batch into its `count` passwords of `n` bytes
(the stride-`pw_length` reads of paranoid.c line 231). -/
def chunksOf (n : Nat) : Nat → List Nat → List (List Nat)
  | 0, _ => []
  | k + 1, l => l.take n :: chunksOf n k (l.drop n)

/-- The batch-generation loop of stage 2 (paranoid.c lines 669-673):
passwords are written at stride `pw_length` (each NUL is overwritten by
the next password), aborting with the failing code. -/
def genBatch (cs : List Nat) (cl L : Int) :
    Nat → List Nat → List Nat → Int × List Nat × List Nat
  | 0, acc, ent => (0, acc, ent)
  | k + 1, acc, ent =>
    let r := paranoid_generate (some cs) cl L true ent
    if r.1 = 0 then
      genBatch cs cl L k (acc ++ (r.2.1.getD []).dropLast) r.2.2
    else (r.1, acc, r.2.2)

theorem genBatch_fail (cs : List Nat) (cl L : Int)
    (hcl1 : 1 ≤ cl) (hcl2 : cl ≤ 128) (hL1 : 1 ≤ L) (hL2 : L ≤ 256) :
    ∀ (k : Nat) (acc ent : List Nat),
      (genBatch cs cl L k acc ent).1 ≠ 0 → (genBatch cs cl L k acc ent).1 = -1 := by
  intro k
  induction k with
  | zero => intro acc ent h; simp [genBatch] at h
  | succ k ih =>
    intro acc ent h
    simp only [genBatch] at h ⊢
    rcases paranoid_generate_valid_classify cs cl L ent hcl1 hcl2 hL1 hL2 with
      h0 | ⟨h1, _⟩
    · rw [if_pos h0] at h ⊢
      exact ih _ _ h
    · rw [if_neg (by rw [h1]; decide)] at h ⊢
      exact h1

/-- The result record as populated by stage 1 (paranoid.c lines 647-657):
zeroed, inputs recorded, stage counter 1, primary password written
(`buf` is the `pw_length + 1`-byte output buffer of
`paranoid_generate`). -/
def audit_r1 (cl pwLen batchSize : Int) (buf : List Nat) : paranoid_audit_result :=
  { zeroAuditResult with
    charset_size := cl, password_length := pwLen, batch_size := batchSize,
    num_passwords := 1, current_stage := 1, password := buf }

/-- The record after the hex digest is stored and the stage counter
advances to 2 (paranoid.c lines 659-663). -/
def audit_r2 (cl pwLen batchSize : Int) (buf hex : List Nat) : paranoid_audit_result :=
  { audit_r1 cl pwLen batchSize buf with sha256_hex := hex, current_stage := 2 }

/-- The record after the chi-squared (stage 2) and serial-correlation
(stage 3) fields (paranoid.c lines 675-688).  The exact rationals
`1/100` and `1/20` stand for the C double literals `0.01` and `0.05`. -/
def audit_r3 (cl pwLen batchSize : Int) (ops : RealOps) (cs buf hex batch : List Nat) :
    paranoid_audit_result :=
  let cstat := paranoid_chi_squared_stat batch batchSize.toNat pwLen.toNat cs
  let p := ops.chi2_pvalue cstat (paranoid_chi_squared_df cs)
  let sc := paranoid_serial_correlation batch
  { audit_r2 cl pwLen batchSize buf hex with
    chi2_statistic := cstat, chi2_df := paranoid_chi_squared_df cs,
    chi2_p_value := p, chi2_pass := if 1 / 100 < p then 1 else 0,
    current_stage := 3,
    serial_correlation := sc, serial_pass := if |sc| < 1 / 20 then 1 else 0 }

/-- Stages 5-8 (paranoid.c lines 699-762): entropy and birthday-paradox
fields from the `RealOps` oracle, rejection self-audit, pattern check,
character composition, the six compliance flags and the overall verdict.
This tail never fails.  `31557600` is `365.25*24*3600`; stage 7 passes
the stage-7 record to each compliance check (the C code mutates
compliance fields between the six calls, but `paranoid_check_compliance`
never reads them). -/
def auditStage5 (cl pwLen batchSize : Int) (ops : RealOps) (buf : List Nat)
    (r4s : paranoid_audit_result) : Int × Option paranoid_audit_result :=
  let bits := ops.log2q (cl : ℚ)
  let totalEntropy := (pwLen : ℚ) * bits
  let l10 := (pwLen : ℚ) * ops.log10q (cl : ℚ)
  let logS := (pwLen : ℚ) * ops.lnq (cl : ℚ)
  let cprob0 := ops.expq (2 * ops.lnq (batchSize : ℚ) - ops.lnq 2 - logS)
  let r5s := { r4s with
    current_stage := 5,
    bits_per_char := bits,
    total_entropy := totalEntropy,
    log10_search_space := l10,
    brute_force_years := ops.powq 10 (l10 - ops.log10q 2 - 12 - ops.log10q 31557600),
    nist_memorized := if 30 ≤ totalEntropy then 1 else 0,
    nist_high_value := if 80 ≤ totalEntropy then 1 else 0,
    nist_crypto_equiv := if 128 ≤ totalEntropy then 1 else 0,
    nist_post_quantum := if 256 ≤ totalEntropy then 1 else 0,
    collision_probability := if 1 < cprob0 then 1 else cprob0,
    passwords_for_50pct :=
      ops.expq (1 / 2 * (logS + ops.lnq 2 + ops.lnq (ops.lnq 2))),
    rejection_max_valid := rejection_max_valid cl,
    rejection_rate_pct := ((255 - rejection_max_valid cl : Int) : ℚ) / 256 * 100 }
  let pw := buf.dropLast
  let r6 := { r5s with current_stage := 6, pattern_issues := check_patterns pw }
  let cc := count_char_types pw
  let r7 := { r6 with
    current_stage := 7,
    count_lowercase := cc.1, count_uppercase := cc.2.1,
    count_digits := cc.2.2.1, count_symbols := cc.2.2.2 }
  let r7c := { r7 with
    compliance_nist :=
      paranoid_check_compliance (some r7) (some PARANOID_COMPLIANCE_NIST),
    compliance_pci_dss :=
      paranoid_check_compliance (some r7) (some PARANOID_COMPLIANCE_PCI_DSS),
    compliance_hipaa :=
      paranoid_check_compliance (some r7) (some PARANOID_COMPLIANCE_HIPAA),
    compliance_soc2 :=
      paranoid_check_compliance (some r7) (some PARANOID_COMPLIANCE_SOC2),
    compliance_gdpr :=
      paranoid_check_compliance (some r7) (some PARANOID_COMPLIANCE_GDPR),
    compliance_iso27001 :=
      paranoid_check_compliance (some r7) (some PARANOID_COMPLIANCE_ISO27001) }
  (0, some { r7c with
    all_pass := if r7c.chi2_pass ≠ 0 ∧ r7c.serial_pass ≠ 0 ∧
        r7c.collision_pass ≠ 0 ∧ r7c.pattern_issues = 0 then 1 else 0,
    current_stage := 8 })

/-- Stage 4 (paranoid.c lines 690-697): the collision-detection result is
stored into `result->duplicates` first (paranoid.c line 693) and only
then tested, so on the abort path the record keeps the stored `-1`
failure value. -/
def auditStage4 (cs : List Nat) (cl pwLen batchSize : Int)
    (allocHashes shaOkColl : Bool) (ops : RealOps) (buf hex batch : List Nat) :
    Int × Option paranoid_audit_result :=
  let dup := paranoid_count_collisions allocHashes shaOkColl
    (chunksOf pwLen.toNat batchSize.toNat batch)
  let r4d := { audit_r3 cl pwLen batchSize ops cs buf hex batch with
    current_stage := 4, duplicates := dup }
  if dup < 0 then (-1, some r4d)
  else auditStage5 cl pwLen batchSize ops buf
    { r4d with collision_pass := if dup = 0 then 1 else 0 }

/-- Stage 2 onward (paranoid.c lines 662-697): batch allocation, batch
generation and the statistics stages. -/
def auditStage2 (cs : List Nat) (cl pwLen batchSize : Int)
    (allocBatch allocHashes shaOkColl : Bool) (ops : RealOps)
    (buf hex ent : List Nat) : Int × Option paranoid_audit_result :=
  if allocBatch = false then (-1, some (audit_r2 cl pwLen batchSize buf hex))
  else
    let gb := genBatch cs cl pwLen batchSize.toNat [] ent
    if gb.1 ≠ 0 then (gb.1, some (audit_r2 cl pwLen batchSize buf hex))
    else auditStage4 cs cl pwLen batchSize allocHashes shaOkColl ops buf hex gb.2.1

/-- `paranoid_run_audit` (paranoid.c lines 635-763).  `result_ok` models
the result pointer being non-NULL, `allocBatch` / `allocHashes` the two
`malloc` calls.  The platform SHA-256 backend is one C function called at
two sites, and each call may succeed or fail independently: `shaOkHex`
models the stage-1 `paranoid_sha256_hex` call, `shaOkColl` the hashing
calls inside stage 4's `paranoid_count_collisions`.  The second
component is the result record after the call (`none` = never
written). -/
def paranoid_run_audit (charset : Option (List Nat)) (cl pwLen batchSize : Int)
    (result_ok allocBatch allocHashes shaOkHex shaOkColl : Bool) (ops : RealOps)
    (ent : List Nat) : Int × Option paranoid_audit_result :=
  match charset with
  | none => (-1, none)
  | some cs =>
    if result_ok = false then (-1, none)
    else if cl ≤ 0 ∨ PARANOID_MAX_CHARSET_LEN < cl then (-2, none)
    else if pwLen ≤ 0 ∨ PARANOID_MAX_PASSWORD_LEN < pwLen then (-2, none)
    else if batchSize ≤ 0 ∨ PARANOID_MAX_BATCH_SIZE < batchSize then (-2, none)
    else
      let g1 := paranoid_generate (some cs) cl pwLen true ent
      if g1.1 ≠ 0 then (g1.1, some (audit_r1 cl pwLen batchSize (g1.2.1.getD [])))
      else
        let buf := g1.2.1.getD []
        let hx := paranoid_sha256_hex shaOkHex buf
        if hx.1 ≠ 0 then (-1, some (audit_r1 cl pwLen batchSize buf))
        else auditStage2 cs cl pwLen batchSize allocBatch allocHashes shaOkColl ops
          buf hx.2 g1.2.2

theorem chunksOf_length (n : Nat) : ∀ (k : Nat) (l : List Nat),
    (chunksOf n k l).length = k := by
  intro k
  induction k with
  | zero => intro l; rfl
  | succ k ih => intro l; simp [chunksOf, ih]

/-- C9: with valid arguments, every internal failure of
`paranoid_run_audit` — primary-generation failure, hashing failure in
stage 1, batch-allocation failure, batch-generation failure, or an
allocation or hashing failure inside stage 4's collision detection —
aborts the run at that stage with the failing step's error code, leaving
every later-stage field at its zeroed initial value (on a stage-4 abort
the `duplicates` field keeps the `-1` failure value the C code stores
before testing it, paranoid.c lines 693-694); and the output buffer
written by a failed generation step is zeroed. -/
theorem paranoid_run_audit_abort (cs : List Nat) (cl pwLen batchSize : Int)
    (allocBatch allocHashes shaOkHex shaOkColl : Bool) (ops : RealOps)
    (ent : List Nat)
    (hcl1 : 1 ≤ cl) (hcl2 : cl ≤ 128) (hL1 : 1 ≤ pwLen) (hL2 : pwLen ≤ 256)
    (hb1 : 1 ≤ batchSize) (hb2 : batchSize ≤ 2000) :
    ((paranoid_generate (some cs) cl pwLen true ent).1 ≠ 0 →
      (paranoid_run_audit (some cs) cl pwLen batchSize true allocBatch allocHashes
          shaOkHex shaOkColl ops ent).1 = -1 ∧
      ∃ r, (paranoid_run_audit (some cs) cl pwLen batchSize true allocBatch
          allocHashes shaOkHex shaOkColl ops ent).2 = some r ∧
        r.current_stage = 1 ∧ r.password = List.replicate (pwLen.toNat + 1) 0 ∧
        r.sha256_hex = [] ∧ r.chi2_statistic = 0 ∧ r.serial_correlation = 0 ∧
        r.duplicates = 0 ∧ r.total_entropy = 0 ∧ r.pattern_issues = 0 ∧
        r.all_pass = 0) ∧
    ((paranoid_generate (some cs) cl pwLen true ent).1 = 0 → shaOkHex = false →
      (paranoid_run_audit (some cs) cl pwLen batchSize true allocBatch allocHashes
          shaOkHex shaOkColl ops ent).1 = -1 ∧
      ∃ r, (paranoid_run_audit (some cs) cl pwLen batchSize true allocBatch
          allocHashes shaOkHex shaOkColl ops ent).2 = some r ∧
        r.current_stage = 1 ∧ r.sha256_hex = [] ∧ r.chi2_statistic = 0 ∧
        r.duplicates = 0 ∧ r.all_pass = 0) ∧
    ((paranoid_generate (some cs) cl pwLen true ent).1 = 0 → shaOkHex = true →
      allocBatch = false →
      (paranoid_run_audit (some cs) cl pwLen batchSize true allocBatch allocHashes
          shaOkHex shaOkColl ops ent).1 = -1 ∧
      ∃ r, (paranoid_run_audit (some cs) cl pwLen batchSize true allocBatch
          allocHashes shaOkHex shaOkColl ops ent).2 = some r ∧
        r.current_stage = 2 ∧ r.chi2_statistic = 0 ∧ r.serial_correlation = 0 ∧
        r.duplicates = 0 ∧ r.total_entropy = 0 ∧ r.all_pass = 0) ∧
    ((paranoid_generate (some cs) cl pwLen true ent).1 = 0 → shaOkHex = true →
      allocBatch = true →
      (genBatch cs cl pwLen batchSize.toNat []
        (paranoid_generate (some cs) cl pwLen true ent).2.2).1 ≠ 0 →
      (paranoid_run_audit (some cs) cl pwLen batchSize true allocBatch allocHashes
          shaOkHex shaOkColl ops ent).1 = -1 ∧
      ∃ r, (paranoid_run_audit (some cs) cl pwLen batchSize true allocBatch
          allocHashes shaOkHex shaOkColl ops ent).2 = some r ∧
        r.current_stage = 2 ∧ r.chi2_statistic = 0 ∧ r.serial_correlation = 0 ∧
        r.duplicates = 0 ∧ r.total_entropy = 0 ∧ r.all_pass = 0) ∧
    ((paranoid_generate (some cs) cl pwLen true ent).1 = 0 → shaOkHex = true →
      allocBatch = true → allocHashes = false →
      (genBatch cs cl pwLen batchSize.toNat []
        (paranoid_generate (some cs) cl pwLen true ent).2.2).1 = 0 →
      (paranoid_run_audit (some cs) cl pwLen batchSize true allocBatch allocHashes
          shaOkHex shaOkColl ops ent).1 = -1 ∧
      ∃ r, (paranoid_run_audit (some cs) cl pwLen batchSize true allocBatch
          allocHashes shaOkHex shaOkColl ops ent).2 = some r ∧
        r.current_stage = 4 ∧ r.duplicates = -1 ∧ r.collision_pass = 0 ∧
        r.total_entropy = 0 ∧ r.pattern_issues = 0 ∧ r.all_pass = 0 ∧
        r.compliance_nist = 0) ∧
    ((paranoid_generate (some cs) cl pwLen true ent).1 = 0 → shaOkHex = true →
      allocBatch = true → allocHashes = true → shaOkColl = false →
      (genBatch cs cl pwLen batchSize.toNat []
        (paranoid_generate (some cs) cl pwLen true ent).2.2).1 = 0 →
      (paranoid_run_audit (some cs) cl pwLen batchSize true allocBatch allocHashes
          shaOkHex shaOkColl ops ent).1 = -1 ∧
      ∃ r, (paranoid_run_audit (some cs) cl pwLen batchSize true allocBatch
          allocHashes shaOkHex shaOkColl ops ent).2 = some r ∧
        r.current_stage = 4 ∧ r.duplicates = -1 ∧ r.collision_pass = 0 ∧
        r.total_entropy = 0 ∧ r.pattern_issues = 0 ∧ r.all_pass = 0 ∧
        r.compliance_nist = 0) ∧
    (∀ e : List Nat, (paranoid_generate (some cs) cl pwLen true e).1 ≠ 0 →
      (paranoid_generate (some cs) cl pwLen true e).2.1
        = some (List.replicate (pwLen.toNat + 1) 0)) := by
  have hv1 : ¬(cl ≤ 0 ∨ PARANOID_MAX_CHARSET_LEN < cl) := by
    rw [PARANOID_MAX_CHARSET_LEN]; omega
  have hv2 : ¬(pwLen ≤ 0 ∨ PARANOID_MAX_PASSWORD_LEN < pwLen) := by
    rw [PARANOID_MAX_PASSWORD_LEN]; omega
  have hv3 : ¬(batchSize ≤ 0 ∨ PARANOID_MAX_BATCH_SIZE < batchSize) := by
    rw [PARANOID_MAX_BATCH_SIZE]; omega
  refine ⟨?_, ?_, ?_, ?_, ?_, ?_, ?_⟩
  · -- stage-1 generation failure
    intro hg
    rcases paranoid_generate_valid_classify cs cl pwLen ent hcl1 hcl2 hL1 hL2 with
      h0 | ⟨h1, hbuf⟩
    · exact absurd h0 hg
    simp only [paranoid_run_audit, Bool.true_eq_false, if_false,
      if_neg hv1, if_neg hv2, if_neg hv3]
    rw [if_pos hg]
    refine ⟨h1, _, rfl, rfl, ?_, rfl, rfl, rfl, rfl, rfl, rfl, rfl⟩
    rw [hbuf]
    rfl
  · -- stage-1 hashing failure
    intro hg0 hsha
    subst hsha
    simp only [paranoid_run_audit, Bool.true_eq_false, if_false,
      if_neg hv1, if_neg hv2, if_neg hv3]
    rw [if_neg (not_not_intro hg0), if_pos (by simp [paranoid_sha256_hex])]
    exact ⟨rfl, _, rfl, rfl, rfl, rfl, rfl, rfl⟩
  · -- stage-2 allocation failure
    intro hg0 hsha hab
    subst hsha; subst hab
    simp only [paranoid_run_audit, auditStage2, Bool.true_eq_false, if_false,
      eq_self_iff_true, if_true, if_neg hv1, if_neg hv2, if_neg hv3]
    rw [if_neg (not_not_intro hg0), if_neg (by simp [paranoid_sha256_hex])]
    exact ⟨rfl, _, rfl, rfl, rfl, rfl, rfl, rfl, rfl⟩
  · -- stage-2 batch generation failure
    intro hg0 hsha hab hgb
    subst hsha; subst hab
    have hrc := genBatch_fail cs cl pwLen hcl1 hcl2 hL1 hL2 batchSize.toNat []
      (paranoid_generate (some cs) cl pwLen true ent).2.2 hgb
    simp only [paranoid_run_audit, auditStage2, Bool.true_eq_false, if_false,
      if_neg hv1, if_neg hv2, if_neg hv3]
    rw [if_neg (not_not_intro hg0), if_neg (by simp [paranoid_sha256_hex]),
      if_pos hgb]
    exact ⟨hrc, _, rfl, rfl, rfl, rfl, rfl, rfl, rfl⟩
  · -- stage-4 collision allocation failure
    intro hg0 hsha hab hah hgb0
    subst hsha; subst hab; subst hah
    simp only [paranoid_run_audit, auditStage2, auditStage4,
      paranoid_count_collisions, Bool.true_eq_false, if_false,
      eq_self_iff_true, if_true, if_neg hv1, if_neg hv2, if_neg hv3]
    rw [if_neg (not_not_intro hg0), if_neg (by simp [paranoid_sha256_hex]),
      if_neg (not_not_intro hgb0), if_pos (by decide : (-1 : Int) < 0)]
    exact ⟨rfl, _, rfl, rfl, rfl, rfl, rfl, rfl, rfl, rfl⟩
  · -- stage-4 hashing failure inside collision detection
    intro hg0 hsha hab hah hshaC hgb0
    subst hsha; subst hab; subst hah; subst hshaC
    have hpos : 0 < batchSize.toNat := by omega
    simp only [paranoid_run_audit, auditStage2, auditStage4,
      paranoid_count_collisions, chunksOf_length, Bool.true_eq_false, if_false,
      eq_self_iff_true, if_true, true_and, if_neg hv1, if_neg hv2, if_neg hv3]
    rw [if_neg (not_not_intro hg0), if_neg (by simp [paranoid_sha256_hex]),
      if_neg (not_not_intro hgb0), if_pos hpos,
      if_pos (by decide : (-1 : Int) < 0)]
    exact ⟨rfl, _, rfl, rfl, rfl, rfl, rfl, rfl, rfl, rfl⟩
  · -- a failed generation step zeroes the buffer it wrote
    intro e hg
    rcases paranoid_generate_valid_classify cs cl pwLen e hcl1 hcl2 hL1 hL2 with
      h0 | ⟨_, hbuf⟩
    · exact absurd h0 hg
    · exact hbuf

/-- Witness for C9 (collision-allocation-failure clause) at charset "a",
length 1, batch size 1: the run aborts at stage 4 and the record keeps
the stored `-1` in `duplicates`. -/
theorem paranoid_run_audit_abort_witness :
    (paranoid_run_audit (some [97]) 1 1 1 true true false true true trivOps
        [0, 0, 0, 0]).1 = -1 ∧
    ∃ r, (paranoid_run_audit (some [97]) 1 1 1 true true false true true trivOps
        [0, 0, 0, 0]).2 = some r ∧
      r.current_stage = 4 ∧ r.duplicates = -1 ∧ r.collision_pass = 0 ∧
      r.total_entropy = 0 ∧ r.pattern_issues = 0 ∧ r.all_pass = 0 ∧
      r.compliance_nist = 0 :=
  (paranoid_run_audit_abort [97] 1 1 1 true false true true trivOps [0, 0, 0, 0]
    (by decide) (by decide) (by decide) (by decide) (by decide)
    (by decide)).2.2.2.2.1 (by decide) rfl rfl rfl (by decide)
